import Mathlib

/-!
Shallow embedding of the iracing.rs telemetry/broadcast library.

The live shared-memory region is modelled as a function from byte index to
byte value (`Mem`); machine bytes are `Nat` reduced by an explicit `% 256`
at every read, and u16/u32 arithmetic is `Nat` with explicit `% 2^w` where
the source performs wrapping machine arithmetic.

The repository ships `src/telemetry/connection.rs`, `src/telemetry/ibt.rs`,
`src/broadcast.rs`, `src/fps.rs`, `src/lib.rs` and `src/simulation.rs`.
The modules `telemetry/header.rs` (types `Header`, `Sample`,
`DiskSubHeader`), `telemetry/session.rs` (type `SessionDetails`) and
`states.rs` (type `CameraState`) are referenced by that code but are not
present; definitions for those parts are modelled from the specification
and carry a doc comment saying so.
-/

/-- A byte-addressed read-only memory; reads reduce the stored value mod 256,
mirroring raw `u8` access through the mapped pointer. -/
def Mem : Type := Nat → Nat

/-- Read a little-endian `u32` at byte offset `off`. -/
def readU32 (m : Mem) (off : Nat) : Nat :=
  m off % 256 + 256 * (m (off + 1) % 256) + 65536 * (m (off + 2) % 256) +
    16777216 * (m (off + 3) % 256)

/-- Modelled from the spec: the parsed telemetry header (`telemetry/header.rs`
is not under `src/`); fields as listed in spec section 3, each buffer
descriptor is a `(tick, buffer_offset)` pair. -/
structure Header where
  version : Nat
  status : Nat
  tickRate : Nat
  sessionInfoUpdate : Nat
  sessionInfoLength : Nat
  sessionInfoOffset : Nat
  varCount : Nat
  varHeaderOffset : Nat
  bufCount : Nat
  bufLength : Nat
  buffers : List (Nat × Nat)
deriving Repr, DecidableEq

/-- Modelled from the spec: `Header::parse` (`telemetry/header.rs` is not under
`src/`) - a pure function of the region's current bytes, little-endian fixed
width fields at fixed offsets, followed by one `(tick, offset)` descriptor per
declared buffer. -/
def Header.parse (m : Mem) : Header :=
  { version := readU32 m 0
    status := readU32 m 4
    tickRate := readU32 m 8
    sessionInfoUpdate := readU32 m 12
    sessionInfoLength := readU32 m 16
    sessionInfoOffset := readU32 m 20
    varCount := readU32 m 24
    varHeaderOffset := readU32 m 28
    bufCount := readU32 m 32
    bufLength := readU32 m 36
    buffers := (List.range (readU32 m 32)).map fun k =>
      (readU32 m (48 + 16 * k), readU32 m (52 + 16 * k)) }

/-- Modelled from the spec: bit 0 of `status` is the producer-connected flag. -/
def Header.isConnected (h : Header) : Bool :=
  h.status % 2 = 1

/-- A region as the caller sees it: a declared byte length plus its contents.
The live code only ever holds the raw mapped pointer, so the operations below
receive the whole `Region` but can consult only `mem`. -/
structure Region where
  len : Nat
  mem : Mem

/-- An owned copy of one telemetry sample: the chosen buffer's tick, its copied
bytes, and the possibly-stale marker of spec section 4.3. -/
structure Sample where
  tick : Nat
  bytes : List Nat
  possiblyStale : Bool
deriving Repr, DecidableEq

/-- Copy `len` bytes starting at absolute offset `off`. -/
def copyAt (m : Mem) (off len : Nat) : List Nat :=
  (List.range len).map fun i => m (off + i) % 256

/-- Index of the buffer descriptor with the greatest tick (first one on ties,
0 for an empty descriptor list). -/
def bestBufferIdx : List (Nat × Nat) → Nat
  | [] => 0
  | b :: rest =>
    let j := bestBufferIdx rest
    if b.1 < (rest.getD j (0, 0)).1 then j + 1 else 0

/-- The descriptor chosen by buffer selection from the header parsed out of `m`. -/
def chosenDesc (m : Mem) : Nat × Nat :=
  (Header.parse m).buffers.getD (bestBufferIdx (Header.parse m).buffers) (0, 0)

/-- The chosen buffer's tick as re-read two steps after the header read at
time `t` (the re-read of spec section 4.3 step 3). -/
def tickAfter (memAt : Nat → Mem) (t : Nat) : Nat :=
  ((Header.parse (memAt (t + 2))).buffers.getD
    (bestBufferIdx (Header.parse (memAt t)).buffers) (0, 0)).1

/-- Whether the attempt starting at time `t` saw a stable tick across the copy. -/
def attemptConsistent (memAt : Nat → Mem) (t : Nat) : Bool :=
  tickAfter memAt t = (chosenDesc (memAt t)).1

/-- The sample produced by the attempt starting at time `t`: the chosen tick and
a copy of the chosen buffer's bytes, with the given staleness marker. -/
def attemptSample (memAt : Nat → Mem) (t : Nat) (stale : Bool) : Sample :=
  ⟨(chosenDesc (memAt t)).1,
    copyAt (memAt (t + 1)) (chosenDesc (memAt t)).2 (Header.parse (memAt t)).bufLength,
    stale⟩

/-- Modelled from the spec: the buffer-selection loop of `Header::telemetry`
(section 4.3; `telemetry/header.rs` is not under `src/`). Each attempt reads
the header, picks the greatest-tick descriptor, copies its bytes, re-reads the
header, and retries when the chosen tick changed; with no fuel left the last
copy is returned marked possibly stale instead of an error. -/
def selectBufferLoop (memAt : Nat → Mem) : Nat → Nat → Sample
  | 0, t =>
    if attemptConsistent memAt t then attemptSample memAt t false
    else attemptSample memAt t true
  | fuel + 1, t =>
    if attemptConsistent memAt t then attemptSample memAt t false
    else selectBufferLoop memAt fuel (t + 3)

/-- Modelled from the spec: a live telemetry read; three attempts in total
(spec section 4.3 step 3, bound of 3). -/
def telemetry (memAt : Nat → Mem) : Sample :=
  selectBufferLoop memAt 2 0

/-- The descriptor buffer selection chooses out of a given header value. -/
def chosenDescOf (h : Header) : Nat × Nat :=
  h.buffers.getD (bestBufferIdx h.buffers) (0, 0)

/-- The chosen buffer's tick as re-read two steps after an attempt driven by
the header value `h` started at time `t`. -/
def tickAfterOf (h : Header) (memAt : Nat → Mem) (t : Nat) : Nat :=
  ((Header.parse (memAt (t + 2))).buffers.getD (bestBufferIdx h.buffers) (0, 0)).1

/-- Whether an attempt driven by the header value `h` saw a stable tick. -/
def attemptConsistentOf (h : Header) (memAt : Nat → Mem) (t : Nat) : Bool :=
  tickAfterOf h memAt t = (chosenDescOf h).1

/-- The sample produced by an attempt driven by the header value `h`. -/
def attemptSampleOf (h : Header) (memAt : Nat → Mem) (t : Nat) (stale : Bool) : Sample :=
  ⟨(chosenDescOf h).1,
    copyAt (memAt (t + 1)) (chosenDescOf h).2 h.bufLength,
    stale⟩

/-- Modelled from the spec: the buffer-selection loop with the header value
driving the current attempt made explicit - the first attempt uses the header
the caller already holds, and each retry uses the header re-read from the
region (spec section 4.3 step 3). -/
def selectLoopFrom (memAt : Nat → Mem) : Nat → Header → Nat → Sample
  | 0, h, t =>
    if attemptConsistentOf h memAt t then attemptSampleOf h memAt t false
    else attemptSampleOf h memAt t true
  | fuel + 1, h, t =>
    if attemptConsistentOf h memAt t then attemptSampleOf h memAt t false
    else selectLoopFrom memAt fuel (Header.parse (memAt (t + 3))) (t + 3)

/-- Modelled from the spec: `Header::telemetry` (`telemetry/header.rs` is not
under `src/`) - the decode entry point as a method on a `Header` value, as
called by `Connection::telemetry` (with the header just parsed) and by
`Blocking::sample` (with `self.header`, the header cached at construction):
the selection loop's first attempt is driven by `self`. -/
def Header.telemetry (h : Header) (memAt : Nat → Mem) : Sample :=
  selectLoopFrom memAt 2 h 0

/-- Latin-1 decoding as performed by `decode_latin1`: every byte maps to the
Unicode codepoint of the same numeric value; total for all byte contents. -/
def decodeLatin1 (bs : List Nat) : String :=
  String.mk (bs.map fun b => Char.ofNat (b % 256))

/-- The bytes sliced by `Connection::session_info`: exactly
`session_info_length` bytes starting at `session_info_offset`, bounds taken
from a fresh header parse of the same memory. -/
def sessionInfoSlice (m : Mem) : List Nat :=
  (List.range (Header.parse m).sessionInfoLength).map fun i =>
    m ((Header.parse m).sessionInfoOffset + i) % 256

/-- The absolute byte indices `Connection::session_info` reads. -/
def sessionInfoFootprint (m : Mem) : List Nat :=
  (List.range (Header.parse m).sessionInfoLength).map fun i =>
    (Header.parse m).sessionInfoOffset + i

/-- `Connection::session_info` from `src/telemetry/connection.rs`: parse the
header afresh, slice the declared byte range, decode it as Latin-1 and hand the
text to the session-document parser `p` (the `serde_yaml` call, modelled
abstractly); its error is propagated unchanged. The region's declared length
is never consulted. -/
def Connection.sessionInfo {α : Type} (r : Region) (p : String → Except String α) :
    Except String α :=
  p (decodeLatin1 (sessionInfoSlice r.mem))

/-- `Connection::is_connected` from `src/telemetry/connection.rs`: re-parses the
header from the current region contents. -/
def Connection.isConnected (m : Mem) : Bool :=
  (Header.parse m).isConnected

/-- A live connection as held by the caller: just the mapped region.
`Connection` in `src/telemetry/connection.rs` stores only the raw view pointer
and no open/closed flag. -/
structure LiveConnection where
  region : Region

/-- `Connection::close` from `src/telemetry/connection.rs`: asks the OS to
close the handle (outcome `osOk`/`errno` supplied by the platform) and returns;
the connection value itself is left exactly as it was - no flag is set. -/
def Connection.close (c : LiveConnection) (osOk : Bool) (errno : Nat) :
    Except Nat Unit × LiveConnection :=
  (if osOk then Except.ok () else Except.error errno, c)

/-- `TelemetryError` from `src/telemetry/connection.rs` plus the two other
error shapes `Blocking::sample` can return: the OS error of the
`0xFFFFFFFF` wait branch (`std::io::Error`, held as its raw `errno`) and the
`TryFromIntError` of the timeout conversion. -/
inductive TelemetryError
  | abandoned
  | timeout (ms : Nat)
  | osError (errno : Nat)
  | unknown (code : Nat)
  | intoError
deriving Repr, DecidableEq

/-- The `Blocking` interface of `src/telemetry/connection.rs`: it stores the
`Header` value it was constructed with and reuses it on every later call. -/
structure Blocking where
  header : Header

/-- `Connection::blocking` / `Blocking::new`: the header is parsed once, from
the region contents at construction time. -/
def Blocking.new (m : Mem) : Blocking :=
  ⟨Header.parse m⟩

/-- `Blocking::is_connected`: answers from the stored header. `mNow`, the
region contents at the time of the call, is what a re-parsing implementation
would consult; the code ignores it. -/
def Blocking.isConnected (b : Blocking) (mNow : Mem) : Bool :=
  b.header.isConnected

/-- State of the cross-process notification event. -/
structure GateState where
  signaled : Bool
deriving Repr, DecidableEq

/-- Modelled from the spec: the outcome `WaitForSingleObject` reports for this
gate (section 4.5, restricted to the signaled/timed-out cases): `0x0` when the
event is already signaled or the producer signals during the wait, else
`0x102` (timeout). -/
def GateState.waitCode (g : GateState) (producerSignals : Bool) : Nat :=
  if g.signaled || producerSignals then 0 else 0x102

/-- Observable platform actions of one `Blocking::sample` call, for ordering. -/
inductive Act
  | wait
  | resetEvent
  | decode
deriving Repr, DecidableEq

/-- The platform actions `Blocking::sample` performs for a given wait outcome:
only the signaled (`0x0`) branch resets the event and decodes a sample, and it
resets before it decodes. -/
def sampleActs (waitOutcome : Nat) : List Act :=
  if waitOutcome = 0 then [Act.wait, Act.resetEvent, Act.decode] else [Act.wait]

/-- `Blocking::sample` from `src/telemetry/connection.rs`. The timeout is
converted to a `u32` millisecond count (failing with the conversion error when
it does not fit); the wait outcome `waitOutcome` and OS error code `errno` come
from the platform; on `0x0` (signaled) the event is reset and the sample is
decoded by `self.header.telemetry(self.origin)` - the header value cached in
the `Blocking` at construction drives the decode against the live memory
`memAt`. Returns the result together with the gate state after the call. -/
def Blocking.sample (b : Blocking) (g : GateState) (timeoutMs : Nat)
    (waitOutcome errno : Nat) (memAt : Nat → Mem) :
    Except TelemetryError Sample × GateState :=
  if timeoutMs < 4294967296 then
    if waitOutcome = 0x80 then (Except.error TelemetryError.abandoned, g)
    else if waitOutcome = 0x102 then (Except.error (TelemetryError.timeout timeoutMs), g)
    else if waitOutcome = 0xFFFFFFFF then (Except.error (TelemetryError.osError errno), g)
    else if waitOutcome = 0 then (Except.ok (Header.telemetry b.header memAt), ⟨false⟩)
    else (Except.error (TelemetryError.unknown waitOutcome), g)
  else (Except.error TelemetryError.intoError, g)

/-- Modelled from the spec: `DiskSubHeader` (section 3; `telemetry/header.rs`
is not under `src/`). -/
structure DiskSubHeader where
  sessionInfoOffset : Nat
  sessionInfoLength : Nat
  sampleCount : Nat
  firstSampleOffset : Nat
  sampleStride : Nat
deriving Repr, DecidableEq

/-- Errors of the disk-format reader (spec section 7). -/
inductive DiskError
  | indexOutOfRange
  | truncatedFile
deriving Repr, DecidableEq

/-- Modelled from the spec: `sample_at` of the disk-format reader (section 4.7;
the sample decoding of `telemetry/header.rs` is not under `src/`). Index is
validated against `sample_count`, the record offset is
`first_sample_offset + index * sample_stride`, and a record extending past the
file's actual length is `TruncatedFile`. Disk samples carry no rotation tick
and are never stale (the file is immutable once opened). -/
def sampleAt (r : Region) (sub : DiskSubHeader) (idx : Nat) : Except DiskError Sample :=
  if idx < sub.sampleCount then
    let off := sub.firstSampleOffset + idx * sub.sampleStride
    if off + sub.sampleStride ≤ r.len then
      Except.ok ⟨0, copyAt r.mem off sub.sampleStride, false⟩
    else Except.error DiskError.truncatedFile
  else Except.error DiskError.indexOutOfRange

/-- `BroadcastMessageType` from `src/broadcast.rs`. -/
inductive BroadcastMessageType
  | cameraSwitchPosition
  | cameraSwitchNumber
  | cameraSetState
  | replaySetPlaySpeed
  | replaySetPlayPosition
  | replaySearch
  | replaySetState
  | reloadTextures
  | chatCommand
  | pitCommand
  | telemetryCommand
  | ffbCommand
  | replaySearchSessionTime
  | videoCapture
deriving Repr, DecidableEq

/-- `ReplayPositionMode` from `src/broadcast.rs`, as its `u16` discriminant. -/
inductive ReplayPositionMode
  | begin
  | current
  | «end»
deriving Repr, DecidableEq

def ReplayPositionMode.toWord : ReplayPositionMode → Nat
  | .begin => 0
  | .current => 1
  | .«end» => 2

/-- `ReplaySearchMode` from `src/broadcast.rs`, as its `u16` discriminant. -/
inductive ReplaySearchMode
  | toStart
  | toEnd
  | previousSession
  | nextSession
  | previousLap
  | nextLap
  | previousFrame
  | nextFrame
  | previousIncident
  | nextIncident
deriving Repr, DecidableEq

def ReplaySearchMode.toWord : ReplaySearchMode → Nat
  | .toStart => 0
  | .toEnd => 1
  | .previousSession => 2
  | .nextSession => 3
  | .previousLap => 4
  | .nextLap => 5
  | .previousFrame => 6
  | .nextFrame => 7
  | .previousIncident => 8
  | .nextIncident => 9

/-- `TelemetryCommandMode` from `src/broadcast.rs`, as its `u16` discriminant. -/
inductive TelemetryCommandMode
  | stop
  | start
  | restart
deriving Repr, DecidableEq

def TelemetryCommandMode.toWord : TelemetryCommandMode → Nat
  | .stop => 0
  | .start => 1
  | .restart => 2

/-- `ChatCommandMode` from `src/broadcast.rs`, as its `u16` discriminant. -/
inductive ChatCommandMode
  | macroMode
  | begin
  | reply
  | cancel
deriving Repr, DecidableEq

def ChatCommandMode.toWord : ChatCommandMode → Nat
  | .macroMode => 0
  | .begin => 1
  | .reply => 2
  | .cancel => 3

/-- `VideoCaptureMode` from `src/broadcast.rs`, as its `u16` discriminant. -/
inductive VideoCaptureMode
  | screenShot
  | startCapture
  | endCapture
  | toggleCapture
  | showTimer
  | hideTimer
deriving Repr, DecidableEq

def VideoCaptureMode.toWord : VideoCaptureMode → Nat
  | .screenShot => 0
  | .startCapture => 1
  | .endCapture => 2
  | .toggleCapture => 3
  | .showTimer => 4
  | .hideTimer => 5

/-- `PitCommandMode` from `src/broadcast.rs`; payload bytes are `u8`. -/
inductive PitCommandMode
  | clear
  | tearoff
  | fuel (level : Nat)
  | lf (pressure : Nat)
  | rf (pressure : Nat)
  | lr (pressure : Nat)
  | rr (pressure : Nat)
  | clearTires
  | fastRepair
  | clearTearoff
  | clearFastRepair
  | clearFuel
deriving Repr, DecidableEq

/-- `PitCommandMode::encode`: the `(var1, var2)` words of the broadcast API. -/
def PitCommandMode.encode : PitCommandMode → Nat × Nat
  | .clear => (0, 0)
  | .tearoff => (1, 0)
  | .fuel level => (2, level)
  | .lf pressure => (3, pressure)
  | .rf pressure => (4, pressure)
  | .lr pressure => (5, pressure)
  | .rr pressure => (6, pressure)
  | .clearTires => (7, 0)
  | .fastRepair => (8, 0)
  | .clearTearoff => (9, 0)
  | .clearFastRepair => (10, 0)
  | .clearFuel => (11, 0)

/-- Modelled from the spec: `CameraState` (`states.rs` is not under `src/`) -
a bitflags value whose raw bits the broadcast layer narrows to `u16`. -/
structure CameraState where
  bits : Nat
deriving Repr, DecidableEq

/-- `BroadcastMessage` from `src/broadcast.rs`. Numeric payloads that are `u8`
or `u16` in the source are carried as `Nat`; the `u8` ones are only ever
widened. The source constructor `ChatCommandMacro` is named
`chatCommandMacroMsg` here. -/
inductive BroadcastMessage
  | cameraSwitchPosition (position group camera : Nat)
  | cameraSwitchNumber (carNumber : String) (group camera : Nat)
  | cameraSetState (state : CameraState)
  | replaySetPlaySpeed (speed : Nat) (slowMotion : Bool)
  | replaySetPlayPosition (mode : ReplayPositionMode) (frameNumber : Nat)
  | replaySearch (mode : ReplaySearchMode)
  | replaySetState
  | reloadAllTextures
  | reloadTextures (carIndex : Nat)
  | chatCommand (mode : ChatCommandMode)
  | chatCommandMacroMsg (macroNumber : Nat)
  | pitCommand (mode : PitCommandMode)
  | telemetryCommand (mode : TelemetryCommandMode)
  | ffbCommand (value : Nat)
  | replaySearchSessionTime (sessionNumber sessionTimeMs : Nat)
  | videoCapture (mode : VideoCaptureMode)

/-- Count of leading `b'0'` bytes of `pad_car_number`. -/
def countLeadingZeros : List Char → Nat
  | [] => 0
  | c :: rest => if c = '0' then countLeadingZeros rest + 1 else 0

/-- Rust's `u16::from_str` sign handling for an unsigned target: a single
leading `'+'` is dropped, everything else is kept for the digit loop. -/
def stripPlus : List Char → List Char
  | '+' :: rest => rest
  | cs => cs

/-- Decimal value of a digit string, with the accumulator exposed. -/
def valFrom (n : Nat) (cs : List Char) : Nat :=
  cs.foldl (fun a c => a * 10 + (c.toNat - 48)) n

/-- Decimal value of a digit string. -/
def digitsVal (cs : List Char) : Nat :=
  valFrom 0 cs

/-- One step of Rust's `u16::from_str` digit loop: reject a non-digit, multiply
and add with an overflow check against `u16::MAX`. -/
def parseU16Step (acc : Option Nat) (c : Char) : Option Nat :=
  match acc with
  | none => none
  | some n =>
    if c.isDigit then
      if n * 10 + (c.toNat - 48) ≤ 65535 then some (n * 10 + (c.toNat - 48)) else none
    else none

/-- Rust's `u16::from_str` applied after sign handling: an empty digit string
is an error. -/
def parseU16Digits (cs : List Char) : Option Nat :=
  match cs with
  | [] => none
  | _ => cs.foldl parseU16Step (some 0)

/-- Rust's `str::parse::<u16>`: optional single leading `'+'`, then one or more
decimal digits, value at most `u16::MAX`; anything else is an error. -/
def parseU16 (s : String) : Option Nat :=
  parseU16Digits (stripPlus s.data)

/-- The strings accepted by `str::parse::<u16>`, characterised directly: after
dropping an optional single leading `'+'` there is at least one character, all
of them decimal digits, and the decimal value fits in `u16`. -/
def u16Grammar (s : String) : Prop :=
  stripPlus s.data ≠ [] ∧ (stripPlus s.data).all Char.isDigit = true
    ∧ digitsVal (stripPlus s.data) ≤ 65535

/-- `pad_car_number` from `src/broadcast.rs`. `none` models the panic of the
`parse().unwrap()`; the leading-zero arithmetic is `u16` arithmetic, embedded
with an explicit `% 65536`. -/
def padCarNumber (s : String) : Option Nat :=
  let len := s.data.length
  let zeros0 := countLeadingZeros s.data
  let zeros := if 0 < zeros0 ∧ zeros0 = len then zeros0 - 1 else zeros0
  match parseU16 s with
  | none => none
  | some num =>
    if 0 < zeros then
      let numPlace := if 99 < num then 3 else if 9 < num then 2 else 1
      some ((num + 1000 * (numPlace + zeros)) % 65536)
    else some num

/-- `BroadcastMessage::to_message` from `src/broadcast.rs`: the outbound
`(message type, var1, var2, var3)` tuple. `none` models the panics reachable
from this function (the `pad_car_number` unwrap and the camera-state `u16`
narrowing unwrap). -/
def BroadcastMessage.toMessage : BroadcastMessage → Option (BroadcastMessageType × Nat × Nat × Nat)
  | .cameraSwitchPosition position group camera =>
    some (BroadcastMessageType.cameraSwitchPosition, position, group, camera)
  | .cameraSwitchNumber carNumber group camera =>
    match padCarNumber carNumber with
    | none => none
    | some n => some (BroadcastMessageType.cameraSwitchNumber, n, group, camera)
  | .cameraSetState state =>
    if state.bits ≤ 65535 then some (BroadcastMessageType.cameraSetState, state.bits, 0, 0)
    else none
  | .replaySetPlaySpeed speed slowMotion =>
    some (BroadcastMessageType.replaySetPlaySpeed, speed, if slowMotion then 1 else 0, 0)
  | .replaySetPlayPosition mode frameNumber =>
    some (BroadcastMessageType.replaySetPlayPosition, mode.toWord, frameNumber, 0)
  | .replaySearch mode =>
    some (BroadcastMessageType.replaySearch, mode.toWord, 0, 0)
  | .replaySetState =>
    some (BroadcastMessageType.replaySetState, 0, 0, 0)
  | .reloadAllTextures =>
    some (BroadcastMessageType.reloadTextures, 0, 0, 0)
  | .reloadTextures carIndex =>
    some (BroadcastMessageType.reloadTextures, carIndex, 0, 0)
  | .chatCommand mode =>
    some (BroadcastMessageType.chatCommand, mode.toWord, 0, 0)
  | .chatCommandMacroMsg macroNumber =>
    some (BroadcastMessageType.chatCommand, ChatCommandMode.macroMode.toWord, macroNumber, 0)
  | .pitCommand mode =>
    some (BroadcastMessageType.pitCommand, mode.encode.1, mode.encode.2, 0)
  | .telemetryCommand mode =>
    some (BroadcastMessageType.telemetryCommand, mode.toWord, 0, 0)
  | .ffbCommand _ =>
    some (BroadcastMessageType.ffbCommand, 0, 0, 0)
  | .replaySearchSessionTime sessionNumber sessionTimeMs =>
    some (BroadcastMessageType.replaySearchSessionTime, sessionNumber, sessionTimeMs, 0)
  | .videoCapture mode =>
    some (BroadcastMessageType.videoCapture, mode.toWord, 0, 0)

/-- A region whose header declares status bit 0 set (producer connected). -/
def memStatusOn : Mem := fun i => if i = 4 then 1 else 0

/-- A region whose bytes are all zero (producer disconnected). -/
def memAllZero : Mem := fun _ => 0

/-- A region whose header declares a session-info range of 8 bytes at offset
100, used against a declared region length of 64. -/
def memOob : Mem := fun i => if i = 16 then 8 else if i = 20 then 100 else 0

/-- A 64-byte region whose header points the session-info range past its end. -/
def regionOob : Region := ⟨64, memOob⟩

/-- A region evolving over time: one buffer whose tick byte changes at every
step, so every buffer-selection attempt observes a changed tick. -/
def memTicking : Nat → Mem := fun t => fun i => if i = 32 then 1 else if i = 48 then t else 0

example : Connection.isConnected memStatusOn = true := by decide
example : Connection.isConnected memAllZero = false := by decide
example : (Header.parse memOob).sessionInfoOffset = 100 := by decide
example : Connection.sessionInfo regionOob (fun s => Except.ok s.length) = Except.ok 8 := rfl
example : telemetry memTicking = ⟨6, [], true⟩ := by decide
example : padCarNumber (String.mk ['+', '1']) = some 1 := by decide
example : padCarNumber (String.mk ['0', '4', '5']) = some 3045 := by decide
example : padCarNumber (String.mk ['1', '2']) = some 12 := by decide
example : padCarNumber (String.mk ['a']) = none := by decide
example : padCarNumber "12" = some 12 := by decide

theorem stripPlus_cons_of_ne (c : Char) (rest : List Char) (h : c ≠ '+') :
    stripPlus (c :: rest) = c :: rest := by
  unfold stripPlus
  split
  · next heq => cases heq; exact absurd rfl h
  · rfl

theorem parseU16Fold_none (cs : List Char) : cs.foldl parseU16Step none = none := by
  induction cs with
  | nil => rfl
  | cons c cs ih => rw [List.foldl_cons]; exact ih

theorem le_valFrom (cs : List Char) : ∀ n : Nat, n ≤ valFrom n cs := by
  induction cs with
  | nil => intro n; exact Nat.le_refl n
  | cons c cs ih =>
    intro n
    have h1 : n ≤ n * 10 + (c.toNat - 48) := by omega
    exact Nat.le_trans h1 (ih (n * 10 + (c.toNat - 48)))

theorem parseU16Fold_eq (cs : List Char) : ∀ n : Nat, n ≤ 65535 →
    cs.foldl parseU16Step (some n)
      = if cs.all Char.isDigit = true ∧ valFrom n cs ≤ 65535
        then some (valFrom n cs) else none := by
  induction cs with
  | nil =>
    intro n hn
    simp [valFrom, hn]
  | cons c cs ih =>
    intro n hn
    rw [List.foldl_cons]
    by_cases hd : c.isDigit
    · by_cases hv : n * 10 + (c.toNat - 48) ≤ 65535
      · have hstep : parseU16Step (some n) c = some (n * 10 + (c.toNat - 48)) := by
          simp [parseU16Step, hd, hv]
        rw [hstep, ih _ hv]
        have hval : valFrom n (c :: cs) = valFrom (n * 10 + (c.toNat - 48)) cs := rfl
        simp [List.all_cons, hd, hval]
      · have hstep : parseU16Step (some n) c = none := by
          simp [parseU16Step, hd, hv]
        rw [hstep, parseU16Fold_none]
        have hmono := le_valFrom cs (n * 10 + (c.toNat - 48))
        have hbig : ¬ valFrom n (c :: cs) ≤ 65535 := by
          have hval : valFrom n (c :: cs) = valFrom (n * 10 + (c.toNat - 48)) cs := rfl
          omega
        simp [hbig]
    · have hstep : parseU16Step (some n) c = none := by simp [parseU16Step, hd]
      rw [hstep, parseU16Fold_none]
      simp [List.all_cons, hd]

theorem parseU16Digits_eq (cs : List Char) :
    parseU16Digits cs
      = if cs ≠ [] ∧ cs.all Char.isDigit = true ∧ digitsVal cs ≤ 65535
        then some (digitsVal cs) else none := by
  cases cs with
  | nil => simp [parseU16Digits]
  | cons c cs =>
    have h0 : parseU16Digits (c :: cs) = (c :: cs).foldl parseU16Step (some 0) := rfl
    rw [h0, parseU16Fold_eq _ 0 (by omega)]
    have hval : valFrom 0 (c :: cs) = digitsVal (c :: cs) := rfl
    simp [hval]

theorem parseU16_none_iff (s : String) :
    parseU16 s = none ↔ ¬ u16Grammar s := by
  unfold parseU16 u16Grammar
  rw [parseU16Digits_eq]
  split_ifs with h
  · exact iff_of_false (by simp) (not_not_intro h)
  · exact iff_of_true rfl h

theorem parseU16_some (s : String) (h : u16Grammar s) :
    parseU16 s = some (digitsVal (stripPlus s.data)) := by
  obtain ⟨h1, h2, h3⟩ := h
  unfold parseU16
  rw [parseU16Digits_eq, if_pos ⟨h1, h2, h3⟩]

theorem padCarNumber_none_iff (s : String) :
    padCarNumber s = none ↔ parseU16 s = none := by
  unfold padCarNumber
  cases hp : parseU16 s with
  | none => simp
  | some num =>
    dsimp only
    split_ifs <;> simp

/-- C10 counterexample: `pad_car_number` does not panic on every string
containing a non-digit character: the string `"+1"` contains the non-digit
`'+'`, yet `str::parse::<u16>` accepts an optional leading `'+'`, so
`pad_car_number` returns `1` instead of panicking; the panic is also not hit
when this string reaches `pad_car_number` through
`BroadcastMessage::CameraSwitchNumber`. -/
theorem pad_car_number_cex :
    ('+' ∈ ("+1" : String).data ∧ Char.isDigit '+' = false)
    ∧ padCarNumber "+1" = some 1
    ∧ BroadcastMessage.toMessage (BroadcastMessage.cameraSwitchNumber "+1" 0 0)
        = some (BroadcastMessageType.cameraSwitchNumber, 1, 0, 0) :=
  ⟨⟨by decide, by decide⟩, by decide, by decide⟩

/-- C10 amended: `pad_car_number`, reached from converting
`BroadcastMessage::CameraSwitchNumber`, is partial: it panics exactly for the
car-number strings that do not parse as a `u16` (empty, containing any
character other than decimal digits after at most one leading `'+'` sign, or
with numeric value above 65535), and for every all-digit string without
leading zeros whose value fits in `u16` it returns that numeric value
unchanged. -/
theorem pad_car_number_amended (s : String) (group camera : Nat) :
    (padCarNumber s = none ↔ ¬ u16Grammar s)
    ∧ (BroadcastMessage.toMessage (BroadcastMessage.cameraSwitchNumber s group camera) = none
        ↔ padCarNumber s = none)
    ∧ (s.data ≠ [] → s.data.all Char.isDigit = true →
        (s.data.head? ≠ some '0' ∨ s = "0") →
        digitsVal s.data ≤ 65535 →
        padCarNumber s = some (digitsVal s.data)) := by
  refine ⟨?_, ?_, ?_⟩
  · rw [padCarNumber_none_iff, parseU16_none_iff]
  · show (match padCarNumber s with
      | none => none
      | some n => some (BroadcastMessageType.cameraSwitchNumber, n, group, camera)) = none
        ↔ padCarNumber s = none
    cases padCarNumber s <;> simp
  · intro hne hdig hlead hval
    rcases hlead with hlead | rfl
    · obtain ⟨c, rest, hs⟩ : ∃ c rest, s.data = c :: rest := by
        cases hcs : s.data with
        | nil => exact absurd hcs hne
        | cons c rest => exact ⟨c, rest, rfl⟩
      have hcdig : c.isDigit = true := by
        rw [hs, List.all_cons] at hdig
        exact (Bool.and_eq_true_iff.mp hdig).1
      have hcplus : c ≠ '+' := by
        intro h
        rw [h] at hcdig
        exact absurd hcdig (by decide)
      have hc0 : c ≠ '0' := by
        intro h
        rw [hs, h] at hlead
        exact hlead rfl
      have hstrip : stripPlus s.data = s.data := by
        rw [hs]; exact stripPlus_cons_of_ne c rest hcplus
      have hgram : u16Grammar s := by
        refine ⟨?_, ?_, ?_⟩ <;> rw [hstrip]
        · rw [hs]; exact List.cons_ne_nil c rest
        · exact hdig
        · exact hval
      have hparse : parseU16 s = some (digitsVal s.data) := by
        rw [parseU16_some s hgram, hstrip]
      have hzeros : countLeadingZeros s.data = 0 := by
        rw [hs]
        unfold countLeadingZeros
        rw [if_neg hc0]
      unfold padCarNumber
      rw [hparse, hzeros]
      simp
    · decide

/-- C9: for every `u16` value `v`, converting `BroadcastMessage::FFBCommand(v)`
to an outbound message yields the tuple `(FFBCommand, 0, 0, 0)`: the
force-feedback value is never encoded into the payload, so any two FFBCommand
messages produce identical outbound payloads. -/
theorem ffb_value_never_encoded (v w : Nat) :
    BroadcastMessage.toMessage (BroadcastMessage.ffbCommand v)
      = some (BroadcastMessageType.ffbCommand, 0, 0, 0)
    ∧ BroadcastMessage.toMessage (BroadcastMessage.ffbCommand v)
      = BroadcastMessage.toMessage (BroadcastMessage.ffbCommand w) :=
  ⟨rfl, rfl⟩

/-- Witness for C10 amended: the all-digit string `"12"` without leading zeros
comes back as its numeric value. -/
theorem pad_car_number_amended_witness :
    padCarNumber "12" = some 12 := by
  have h := (pad_car_number_amended "12" 0 0).2.2 (by decide) (by decide)
    (Or.inl (by decide)) (by decide)
  exact h.trans (by decide)

theorem bestBufferIdx_max (bufs : List (Nat × Nat)) :
    ∀ p ∈ bufs, p.1 ≤ (bufs.getD (bestBufferIdx bufs) (0, 0)).1 := by
  induction bufs with
  | nil => intro p hp; cases hp
  | cons b rest ih =>
    intro p hp
    show p.1 ≤ ((b :: rest).getD (bestBufferIdx (b :: rest)) (0, 0)).1
    have hidx : bestBufferIdx (b :: rest)
        = if b.1 < (rest.getD (bestBufferIdx rest) (0, 0)).1
          then bestBufferIdx rest + 1 else 0 := rfl
    rcases List.mem_cons.mp hp with rfl | hmem
    · by_cases hlt : p.1 < (rest.getD (bestBufferIdx rest) (0, 0)).1
      · rw [hidx, if_pos hlt]
        exact Nat.le_of_lt hlt
      · rw [hidx, if_neg hlt]
        exact Nat.le_refl _
    · by_cases hlt : b.1 < (rest.getD (bestBufferIdx rest) (0, 0)).1
      · rw [hidx, if_pos hlt]
        exact ih p hmem
      · rw [hidx, if_neg hlt]
        exact Nat.le_trans (ih p hmem) (Nat.le_of_not_lt hlt)

/-- C1: for every live telemetry read with multiple buffers declared, the
selection step picks the descriptor with the greatest tick, copies its bytes,
re-reads the header, retries from the start while the chosen buffer's tick
changed during the copy and attempts remain (three in total), and after
exhausting the bound returns the last copy with the Sample observably marked
possibly stale instead of an error. -/
theorem buffer_selection_follows_spec (memAt : Nat → Mem) (t fuel f : Nat) :
    (∀ p ∈ (Header.parse (memAt t)).buffers, p.1 ≤ (chosenDesc (memAt t)).1)
    ∧ (attemptConsistent memAt t = true →
        selectBufferLoop memAt fuel t = attemptSample memAt t false)
    ∧ (attemptConsistent memAt t = false →
        selectBufferLoop memAt (f + 1) t = selectBufferLoop memAt f (t + 3))
    ∧ (attemptConsistent memAt t = false →
        selectBufferLoop memAt 0 t = attemptSample memAt t true)
    ∧ telemetry memAt = selectBufferLoop memAt 2 0
    ∧ (attemptSample memAt t true).possiblyStale = true := by
  refine ⟨?_, ?_, ?_, ?_, rfl, rfl⟩
  · exact bestBufferIdx_max (Header.parse (memAt t)).buffers
  · intro h
    cases fuel <;> simp [selectBufferLoop, h]
  · intro h
    simp [selectBufferLoop, h]
  · intro h
    simp [selectBufferLoop, h]

/-- Witness for C1 at a region whose single buffer's tick changes at every
step: every attempt is inconsistent, and the bounded loop ends by returning
the last copy marked possibly stale. -/
theorem buffer_selection_follows_spec_witness :
    attemptConsistent memTicking 6 = false
    ∧ selectBufferLoop memTicking 0 6 = attemptSample memTicking 6 true
    ∧ attemptSample memTicking 6 true = ⟨6, [], true⟩
    ∧ telemetry memTicking = ⟨6, [], true⟩ :=
  ⟨by decide, (buffer_selection_follows_spec memTicking 6 0 0).2.2.2.1 (by decide),
    by decide, by decide⟩

/-- C2 counterexample: on a 64-byte region whose header declares the
session-info range as 8 bytes at offset 100, `Connection::session_info` is not
rejected with any malformed-region error: the read footprint includes byte 100,
past the region's declared length, and the call returns the parser's `ok`
result. -/
theorem decode_validation_cex :
    regionOob.len < (Header.parse regionOob.mem).sessionInfoOffset
        + (Header.parse regionOob.mem).sessionInfoLength
    ∧ (100 : Nat) ∈ sessionInfoFootprint regionOob.mem
    ∧ regionOob.len ≤ 100
    ∧ Connection.sessionInfo regionOob (fun s => Except.ok s.length) = Except.ok 8 :=
  ⟨by decide, by decide, by decide, rfl⟩

/-- C2 amended: decode operations perform no validation of header-declared
offsets and lengths against the region's size: session-info extraction ignores
the region's declared length entirely, unconditionally reads exactly the bytes
from `session_info_offset` to `session_info_offset + session_info_length`,
and has no malformed-region failure mode - its only error is the one the
session-document parser returns. -/
theorem session_info_unvalidated (len len' : Nat) (m : Mem) {α : Type}
    (p : String → Except String α) :
    Connection.sessionInfo ⟨len, m⟩ p = Connection.sessionInfo ⟨len', m⟩ p
    ∧ Connection.sessionInfo ⟨len, m⟩ p = p (decodeLatin1 (sessionInfoSlice m))
    ∧ (∀ j ∈ sessionInfoFootprint m,
        (Header.parse m).sessionInfoOffset ≤ j
        ∧ j < (Header.parse m).sessionInfoOffset + (Header.parse m).sessionInfoLength) := by
  refine ⟨rfl, rfl, ?_⟩
  intro j hj
  simp only [sessionInfoFootprint, List.mem_map, List.mem_range] at hj
  obtain ⟨i, hi, rfl⟩ := hj
  omega

/-- Witness for C2 amended on the out-of-range region: byte index 100 is in
the footprint and lies inside the header-declared range. -/
theorem session_info_unvalidated_witness :
    (100 : Nat) ∈ sessionInfoFootprint memOob
    ∧ (Header.parse memOob).sessionInfoOffset ≤ 100
    ∧ 100 < (Header.parse memOob).sessionInfoOffset + (Header.parse memOob).sessionInfoLength :=
  ⟨by decide,
    ((session_info_unvalidated 64 0 memOob (fun s => Except.ok s.length)).2.2 100 (by decide)).1,
    ((session_info_unvalidated 64 0 memOob (fun s => Except.ok s.length)).2.2 100 (by decide)).2⟩

/-- C3 counterexample: the `Blocking` interface does not re-parse the header
at the time of each operation. A `Blocking` value constructed while the region
declared status bit 0 set still reports `is_connected = true` against region
contents whose freshly parsed header says disconnected. -/
theorem blocking_cached_header_cex :
    Blocking.isConnected (Blocking.new memStatusOn) memAllZero = true
    ∧ Connection.isConnected memAllZero = false :=
  ⟨by decide, by decide⟩

theorem selectLoopFrom_parse (memAt : Nat → Mem) :
    ∀ fuel t, selectLoopFrom memAt fuel (Header.parse (memAt t)) t
      = selectBufferLoop memAt fuel t := by
  intro fuel
  induction fuel with
  | zero => intro t; rfl
  | succ f ih =>
    intro t
    have hfrom : selectLoopFrom memAt (f + 1) (Header.parse (memAt t)) t
        = if attemptConsistent memAt t then attemptSample memAt t false
          else selectLoopFrom memAt f (Header.parse (memAt (t + 3))) (t + 3) := rfl
    have hloop : selectBufferLoop memAt (f + 1) t
        = if attemptConsistent memAt t then attemptSample memAt t false
          else selectBufferLoop memAt f (t + 3) := rfl
    rw [hfrom, hloop, ih (t + 3)]

/-- C3 amended: `Connection`'s operations (connection-status query, telemetry
read, session-info extraction) re-parse the header from the region's current
bytes on every call - the telemetry read hands the header parsed at call time
to the decode - but the `Blocking` interface parses the header once at
construction, answers its connection-status query from that cached header
value whatever the region holds at call time, and on a signaled wait hands
that same cached header value to its sample decode instead of re-parsing. -/
theorem header_reparse_policy (m mNow m0 : Mem) (len : Nat) {α : Type}
    (p : String → Except String α) (memAt : Nat → Mem) :
    Connection.isConnected m = (Header.parse m).isConnected
    ∧ Connection.sessionInfo ⟨len, m⟩ p = p (decodeLatin1 (sessionInfoSlice m))
    ∧ telemetry memAt = selectBufferLoop memAt 2 0
    ∧ telemetry memAt = Header.telemetry (Header.parse (memAt 0)) memAt
    ∧ (Blocking.new m0).header = Header.parse m0
    ∧ Blocking.isConnected (Blocking.new m0) mNow = (Header.parse m0).isConnected
    ∧ (∀ (g : GateState) (errno : Nat),
        (Blocking.sample (Blocking.new m0) g 50 0 errno memAt).1
          = Except.ok (Header.telemetry (Header.parse m0) memAt)) :=
  ⟨rfl, rfl, rfl, (selectLoopFrom_parse memAt 2 0).symm, rfl, rfl, fun g errno => rfl⟩

set_option maxRecDepth 4096 in
theorem latin1_roundtrip : ∀ b < 256, (Char.ofNat b).toNat = b := by decide

/-- C4: session-info extraction slices exactly `session_info_length` bytes at
`session_info_offset`, decodes them byte-for-byte as single-byte Latin-1 text
(a total operation that preserves every byte value as the equal Unicode
codepoint, including bytes at or above 0x80), and fails exactly when the
session-document parser fails on the decoded text - the parse failure is the
component's only failure mode. -/
theorem session_info_latin1_contract (r : Region) {α : Type}
    (p : String → Except String α) :
    (sessionInfoSlice r.mem).length = (Header.parse r.mem).sessionInfoLength
    ∧ (decodeLatin1 (sessionInfoSlice r.mem)).data.map Char.toNat = sessionInfoSlice r.mem
    ∧ (∀ e : String, Connection.sessionInfo r p = Except.error e ↔
        p (decodeLatin1 (sessionInfoSlice r.mem)) = Except.error e) := by
  refine ⟨?_, ?_, fun e => Iff.rfl⟩
  · simp [sessionInfoSlice]
  · have hlt : ∀ b ∈ sessionInfoSlice r.mem, b < 256 := by
      intro b hb
      simp only [sessionInfoSlice, List.mem_map] at hb
      obtain ⟨i, _, rfl⟩ := hb
      exact Nat.mod_lt _ (by omega)
    show ((sessionInfoSlice r.mem).map fun b => Char.ofNat (b % 256)).map Char.toNat
        = sessionInfoSlice r.mem
    rw [List.map_map]
    conv_rhs => rw [← List.map_id (sessionInfoSlice r.mem)]
    refine List.map_congr_left ?_
    intro b hb
    have hb' : b < 256 := hlt b hb
    show (Char.ofNat (b % 256)).toNat = b
    rw [Nat.mod_eq_of_lt hb']
    exact latin1_roundtrip b hb'

/-- C5: every wait outcome of the blocking sample operation is surfaced as a
typed result: abandonment (`0x80`) yields the Abandoned error, timeout expiry
(`0x102`) yields a Timeout error carrying the wait duration in milliseconds, a
platform wait failure (`0xFFFFFFFF`) yields the platform's error code, any
other non-signal code yields the Unknown error, and a Sample is produced
exactly when the producer's signal (`0x0`) was received. -/
theorem blocking_sample_outcomes (b : Blocking) (g : GateState)
    (timeoutMs waitOutcome errno : Nat) (memAt : Nat → Mem)
    (h : timeoutMs < 4294967296) :
    ((Blocking.sample b g timeoutMs waitOutcome errno memAt).1
        = Except.error TelemetryError.abandoned ↔ waitOutcome = 0x80)
    ∧ ((Blocking.sample b g timeoutMs waitOutcome errno memAt).1
        = Except.error (TelemetryError.timeout timeoutMs) ↔ waitOutcome = 0x102)
    ∧ ((Blocking.sample b g timeoutMs waitOutcome errno memAt).1
        = Except.error (TelemetryError.osError errno) ↔ waitOutcome = 0xFFFFFFFF)
    ∧ ((∃ s, (Blocking.sample b g timeoutMs waitOutcome errno memAt).1 = Except.ok s)
        ↔ waitOutcome = 0)
    ∧ (waitOutcome ∉ ([0x80, 0x102, 0xFFFFFFFF, 0] : List Nat) →
        (Blocking.sample b g timeoutMs waitOutcome errno memAt).1
          = Except.error (TelemetryError.unknown waitOutcome)) := by
  unfold Blocking.sample
  rw [if_pos h]
  split_ifs with h1 h2 h3 h4 <;>
    refine ⟨?_, ?_, ?_, ?_, ?_⟩ <;>
    simp_all

/-- Witness for C5: with a 50 ms timeout, the abandonment code surfaces as the
Abandoned error and the timeout code as `Timeout(50)`. -/
theorem blocking_sample_outcomes_witness :
    (Blocking.sample (Blocking.new memStatusOn) ⟨false⟩ 50 0x80 0 (fun _ => memStatusOn)).1
        = Except.error TelemetryError.abandoned
    ∧ (Blocking.sample (Blocking.new memStatusOn) ⟨false⟩ 50 0x102 0 (fun _ => memStatusOn)).1
        = Except.error (TelemetryError.timeout 50) :=
  ⟨(blocking_sample_outcomes (Blocking.new memStatusOn) ⟨false⟩ 50 0x80 0
      (fun _ => memStatusOn) (by omega)).1.mpr rfl,
    (blocking_sample_outcomes (Blocking.new memStatusOn) ⟨false⟩ 50 0x102 0
      (fun _ => memStatusOn) (by omega)).2.1.mpr rfl⟩

/-- C6: when the blocking wait completes as Signaled, the gate's notification
is reset before the sample is decoded and returned (the reset action precedes
the decode action, and the post-call gate state is no longer signaled), so a
subsequent wait on the same gate with no fresh producer signal times out
instead of returning immediately on the stale signal. -/
theorem signaled_resets_gate (b : Blocking) (g : GateState) (timeoutMs errno : Nat)
    (memAt : Nat → Mem) (producer : Bool) (hts : timeoutMs < 4294967296)
    (hs : g.signaled = true) :
    GateState.waitCode g producer = 0
    ∧ (Blocking.sample b g timeoutMs (GateState.waitCode g producer) errno memAt).1
        = Except.ok (Header.telemetry b.header memAt)
    ∧ ((Blocking.sample b g timeoutMs (GateState.waitCode g producer) errno memAt).2).signaled
        = false
    ∧ GateState.waitCode
        ((Blocking.sample b g timeoutMs (GateState.waitCode g producer) errno memAt).2) false
        = 0x102
    ∧ (∃ pre post, sampleActs (GateState.waitCode g producer)
        = pre ++ Act.resetEvent :: post ∧ Act.decode ∈ post ∧ Act.decode ∉ pre) := by
  have hc : GateState.waitCode g producer = 0 := by
    simp [GateState.waitCode, hs]
  rw [hc]
  refine ⟨rfl, ?_, ?_, ?_, ?_⟩
  · simp [Blocking.sample, hts]
  · simp [Blocking.sample, hts]
  · simp [Blocking.sample, hts, GateState.waitCode]
  · exact ⟨[Act.wait], [Act.decode], by simp [sampleActs], by simp, by simp⟩

/-- Witness for C6 on a signaled gate: after a successful sample the gate is no
longer signaled and a fresh wait with no producer signal reports timeout. -/
theorem signaled_resets_gate_witness :
    ((Blocking.sample (Blocking.new memStatusOn) ⟨true⟩ 50
        (GateState.waitCode ⟨true⟩ false) 0 (fun _ => memStatusOn)).2).signaled = false
    ∧ GateState.waitCode
        ((Blocking.sample (Blocking.new memStatusOn) ⟨true⟩ 50
          (GateState.waitCode ⟨true⟩ false) 0 (fun _ => memStatusOn)).2) false = 0x102 :=
  ⟨(signaled_resets_gate (Blocking.new memStatusOn) ⟨true⟩ 50 0
      (fun _ => memStatusOn) false (by omega) rfl).2.2.1,
    (signaled_resets_gate (Blocking.new memStatusOn) ⟨true⟩ 50 0
      (fun _ => memStatusOn) false (by omega) rfl).2.2.2.1⟩

/-- C7 counterexample: closing the connection tracks no open/closed state and
a subsequent decode operation does not fail with any closed-region error - on
the concrete region it proceeds and returns the parser's `ok` result exactly
as before the close. -/
theorem close_then_decode_cex :
    (Connection.close ⟨regionOob⟩ true 0).2 = ⟨regionOob⟩
    ∧ Connection.sessionInfo (Connection.close ⟨regionOob⟩ true 0).2.region
        (fun s => Except.ok s.length) = Except.ok 8 :=
  ⟨rfl, rfl⟩

/-- C7 amended: `Connection::close` only asks the OS to close the handle; the
caller-facing API tracks no open/closed boolean and checks nothing before
operations, so every subsequent decode operation on the connection behaves
exactly as it did before the close (reading the now-torn-down mapping), and no
closed-region error exists. -/
theorem close_tracks_no_state (c : LiveConnection) (osOk : Bool) (errno : Nat)
    {α : Type} (p : String → Except String α) :
    (Connection.close c osOk errno).2 = c
    ∧ Connection.sessionInfo (Connection.close c osOk errno).2.region p
        = Connection.sessionInfo c.region p
    ∧ Connection.isConnected (Connection.close c osOk errno).2.region.mem
        = Connection.isConnected c.region.mem
    ∧ (Connection.close c osOk errno).1
        = (if osOk then Except.ok () else Except.error errno) :=
  ⟨rfl, rfl, rfl, rfl⟩

/-- C8: `sample_at(index)` validates the index against `sample_count`:
`index = sample_count` is IndexOutOfRange; `index = sample_count - 1`, when
its record fits in the file, yields the sample decoded at
`first_sample_offset + index * sample_stride`; and any in-range index whose
computed offset lies beyond the actual file length yields TruncatedFile. -/
theorem disk_sample_at_bounds (r : Region) (sub : DiskSubHeader) :
    sampleAt r sub sub.sampleCount = Except.error DiskError.indexOutOfRange
    ∧ (∀ c, sub.sampleCount = c + 1 →
        sub.firstSampleOffset + c * sub.sampleStride + sub.sampleStride ≤ r.len →
        sampleAt r sub c = Except.ok
          ⟨0, copyAt r.mem (sub.firstSampleOffset + c * sub.sampleStride) sub.sampleStride,
            false⟩)
    ∧ (∀ idx, idx < sub.sampleCount →
        r.len < sub.firstSampleOffset + idx * sub.sampleStride →
        sampleAt r sub idx = Except.error DiskError.truncatedFile) := by
  refine ⟨?_, ?_, ?_⟩
  · unfold sampleAt
    rw [if_neg (Nat.lt_irrefl _)]
  · intro c hc hfit
    unfold sampleAt
    rw [if_pos (by omega), if_pos hfit]
  · intro idx hidx hover
    unfold sampleAt
    rw [if_pos hidx, if_neg (by omega)]

/-- Witness for C8 on a 20-byte file holding 2 samples of stride 8 starting at
offset 4: index 2 is out of range, index 1 decodes at offset 12, and on a
10-byte file index 1 is truncated. -/
theorem disk_sample_at_bounds_witness :
    sampleAt ⟨20, memAllZero⟩ ⟨0, 0, 2, 4, 8⟩ 2 = Except.error DiskError.indexOutOfRange
    ∧ sampleAt ⟨20, memAllZero⟩ ⟨0, 0, 2, 4, 8⟩ 1
        = Except.ok ⟨0, copyAt memAllZero 12 8, false⟩
    ∧ sampleAt ⟨10, memAllZero⟩ ⟨0, 0, 2, 4, 8⟩ 1 = Except.error DiskError.truncatedFile :=
  ⟨(disk_sample_at_bounds ⟨20, memAllZero⟩ ⟨0, 0, 2, 4, 8⟩).1,
    (disk_sample_at_bounds ⟨20, memAllZero⟩ ⟨0, 0, 2, 4, 8⟩).2.1 1 rfl (by decide),
    (disk_sample_at_bounds ⟨10, memAllZero⟩ ⟨0, 0, 2, 4, 8⟩).2.2 1 (by decide) (by decide)⟩
